import Mathlib

/-
Shallow embedding of the mytpu integration (custom_components/mytpu):
the OAuth token lifecycle in auth.py and the statistics importer and
failure classification in the coordinator (TPUDataUpdateCoordinator).

Conventions of the embedding:
- Python floats (timestamps, consumptions, sums) are modelled as ℚ.
- The current wall clock time.time() is passed explicitly as a `now` argument.
- HTTP interaction is modelled by passing the response the network would
  deliver as an explicit argument; each operation additionally returns the
  list of network requests it actually performed, in order.
- A Python method that can raise returns an Except value together with the
  object state at the moment of return or raise (exceptions leave the
  object in the state it had when the exception was raised).
-/

structure TokenInfo where
  access_token : String
  refresh_token : String
  expires_at : ℚ
  customer_id : String
  deriving DecidableEq

/- auth.py TokenInfo.is_expired: time.time() >= (self.expires_at - 60) -/
def TokenInfo.is_expired (t : TokenInfo) (now : ℚ) : Bool :=
  decide (t.expires_at - 60 ≤ now)

/- auth.py TokenInfo.seconds_remaining: self.expires_at - time.time() -/
def TokenInfo.seconds_remaining (t : TokenInfo) (now : ℚ) : ℚ :=
  t.expires_at - now

/- A value stored in the token storage dictionary: strings or numbers. -/
inductive StorageValue where
  | str (s : String)
  | num (q : ℚ)
  deriving DecidableEq

/- auth.py TokenInfo.to_dict -/
def TokenInfo.to_dict (t : TokenInfo) : List (String × StorageValue) :=
  [("access_token", StorageValue.str t.access_token),
   ("refresh_token", StorageValue.str t.refresh_token),
   ("expires_at", StorageValue.num t.expires_at),
   ("customer_id", StorageValue.str t.customer_id)]

/- Python dict lookup data[k] on the storage mapping. -/
def dictGet (d : List (String × StorageValue)) (k : String) : Option StorageValue :=
  (d.find? (fun p => p.1 == k)).map Prod.snd

/- auth.py TokenInfo.from_dict; a missing key raises KeyError, modelled
as none (the caller catches it and degrades to no token). -/
def TokenInfo.from_dict (d : List (String × StorageValue)) : Option TokenInfo :=
  match dictGet d "access_token", dictGet d "refresh_token",
        dictGet d "expires_at", dictGet d "customer_id" with
  | some (StorageValue.str a), some (StorageValue.str r),
    some (StorageValue.num e), some (StorageValue.str c) =>
      some ⟨a, r, e, c⟩
  | _, _, _, _ => none

/- The exception types raised by auth.py: AuthError and ServerError.
(The code defines no other auth exception type.) -/
inductive AuthErr where
  | AuthError
  | ServerError
  deriving DecidableEq

/- The network requests an auth operation can perform, in order. -/
inductive NetRequest where
  | loginPage
  | bundle
  | tokenPost
  deriving DecidableEq

/- The mutable fields of MyTPUAuth. -/
structure AuthState where
  _token : Option TokenInfo
  _oauth_basic_token : Option String
  deriving DecidableEq

/- What the provider would deliver for the two scraping GETs in
_get_oauth_basic_token: the login page status, the result of the
main.<hex>.js regex search on the page HTML, the bundle status, and the
results of the two alternative Basic-token regex searches on the bundle. -/
structure ScrapeEnv where
  pageStatus : Nat
  mainJsMatch : Option String
  bundleStatus : Nat
  basicMatch1 : Option String
  basicMatch2 : Option String
  deriving DecidableEq

/- The POST /rest/oauth/token response: HTTP status and the JSON body
fields the code reads (each Option models presence of the key). -/
structure TokenEndpointResponse where
  status : Nat
  access_token : Option String
  expires_in : Option ℚ
  refresh_token : Option String
  customerId : Option String
  deriving DecidableEq

/- auth.py MyTPUAuth._get_oauth_basic_token -/
def get_oauth_basic_token (st : AuthState) (env : ScrapeEnv) :
    Except AuthErr String × AuthState × List NetRequest :=
  match st._oauth_basic_token with
  | some b => (Except.ok b, st, [])
  | none =>
    if env.pageStatus ≠ 200 then
      (Except.error AuthErr.AuthError, st, [NetRequest.loginPage])
    else
      match env.mainJsMatch with
      | none => (Except.error AuthErr.AuthError, st, [NetRequest.loginPage])
      | some _ =>
        if env.bundleStatus ≠ 200 then
          (Except.error AuthErr.AuthError, st,
            [NetRequest.loginPage, NetRequest.bundle])
        else
          match env.basicMatch1 with
          | some b =>
            (Except.ok b, { st with _oauth_basic_token := some b },
              [NetRequest.loginPage, NetRequest.bundle])
          | none =>
            match env.basicMatch2 with
            | some b =>
              (Except.ok b, { st with _oauth_basic_token := some b },
                [NetRequest.loginPage, NetRequest.bundle])
            | none =>
              (Except.error AuthErr.AuthError, st,
                [NetRequest.loginPage, NetRequest.bundle])

/- auth.py MyTPUAuth._refresh_token -/
def _refresh_token (st : AuthState) (scrape : ScrapeEnv)
    (resp : TokenEndpointResponse) (now : ℚ) :
    Except AuthErr Unit × AuthState × List NetRequest :=
  match st._token with
  | none => (Except.error AuthErr.AuthError, st, [])
  | some tok =>
    if tok.refresh_token = "" then
      (Except.error AuthErr.AuthError, st, [])
    else
      match get_oauth_basic_token st scrape with
      | (Except.error e, st2, reqs) => (Except.error e, st2, reqs)
      | (Except.ok _, st2, reqs) =>
        let reqs := reqs ++ [NetRequest.tokenPost]
        if resp.status ≠ 200 then
          if 500 ≤ resp.status then
            (Except.error AuthErr.ServerError, st2, reqs)
          else
            (Except.error AuthErr.AuthError, st2, reqs)
        else
          match resp.access_token with
          | none => (Except.error AuthErr.AuthError, st2, reqs)
          | some a =>
            let expires_in := resp.expires_in.getD 3600
            let customer_id := resp.customerId.getD tok.customer_id
            let rt := resp.refresh_token.getD tok.refresh_token
            (Except.ok (),
              { st2 with _token := some ⟨a, rt, now + expires_in, customer_id⟩ },
              reqs)

/- auth.py MyTPUAuth.async_login (username and password only shape the
request body, not the modelled control flow) -/
def async_login (st : AuthState) (scrape : ScrapeEnv)
    (resp : TokenEndpointResponse) (now : ℚ) :
    Except AuthErr Unit × AuthState × List NetRequest :=
  match get_oauth_basic_token st scrape with
  | (Except.error e, st2, reqs) => (Except.error e, st2, reqs)
  | (Except.ok _, st2, reqs) =>
    let reqs := reqs ++ [NetRequest.tokenPost]
    if resp.status ≠ 200 then
      (Except.error AuthErr.AuthError, st2, reqs)
    else
      match resp.access_token with
      | none => (Except.error AuthErr.AuthError, st2, reqs)
      | some a =>
        let expires_in := resp.expires_in.getD 3600
        let rt := resp.refresh_token.getD ""
        let cid := resp.customerId.getD ""
        (Except.ok (),
          { st2 with _token := some ⟨a, rt, now + expires_in, cid⟩ },
          reqs)

/- auth.py MyTPUAuth.get_token -/
def get_token (st : AuthState) (now : ℚ) (scrape : ScrapeEnv)
    (resp : TokenEndpointResponse) :
    Except AuthErr String × AuthState × List NetRequest :=
  match st._token with
  | none => (Except.error AuthErr.AuthError, st, [])
  | some tok =>
    if tok.is_expired now then
      match _refresh_token st scrape resp now with
      | (Except.error e, st2, reqs) => (Except.error e, st2, reqs)
      | (Except.ok _, st2, reqs) =>
        match st2._token with
        | some t2 => (Except.ok t2.access_token, st2, reqs)
        | none => (Except.error AuthErr.AuthError, st2, reqs)
    else
      (Except.ok tok.access_token, st, [])

/- auth.py MyTPUAuth.async_proactive_refresh -/
def async_proactive_refresh (st : AuthState) (now : ℚ) (scrape : ScrapeEnv)
    (resp : TokenEndpointResponse) (min_remaining_seconds : ℚ) :
    Except AuthErr Bool × AuthState × List NetRequest :=
  match st._token with
  | none => (Except.ok false, st, [])
  | some tok =>
    if tok.seconds_remaining now < min_remaining_seconds then
      match _refresh_token st scrape resp now with
      | (Except.error e, st2, reqs) => (Except.error e, st2, reqs)
      | (Except.ok _, st2, reqs) => (Except.ok true, st2, reqs)
    else
      (Except.ok false, st, [])

/-
Statistics importer, from TPUDataUpdateCoordinator._import_statistics.
Timestamps are Unix seconds as ℚ (reading.date.timestamp()); one day is
86400 seconds (timedelta(days=1)).
-/

structure UsageReading where
  date : ℚ
  consumption : ℚ
  deriving DecidableEq

structure StatisticData where
  start : ℚ
  state : ℚ
  sum : ℚ
  deriving DecidableEq

/- The most recent previously persisted statistic for the series, as
returned by get_last_statistics: the values of its "sum" and "start"
keys (each may be absent). -/
structure LastStat where
  sum : Option ℚ
  start : Option ℚ
  deriving DecidableEq

/- The dedup test: Python `if last_stat_time and ts <= last_stat_time`.
A None or 0.0 last_stat_time is falsy, so nothing is skipped then. -/
def skipReading (lastStatTime : Option ℚ) (ts : ℚ) : Bool :=
  match lastStatTime with
  | none => false
  | some t => decide (t ≠ 0) && decide (ts ≤ t)

/- The `for reading in readings` loop: skip readings at or before the
watermark, otherwise add the consumption to the running total and emit
a point carrying that total. -/
def emitLoop (lastStatTime : Option ℚ) (cum : ℚ) :
    List UsageReading → List StatisticData
  | [] => []
  | r :: rs =>
    if skipReading lastStatTime r.date then
      emitLoop lastStatTime cum rs
    else
      ⟨r.date, r.consumption, cum + r.consumption⟩ ::
        emitLoop lastStatTime (cum + r.consumption) rs

/- TPUDataUpdateCoordinator._import_statistics: the list of StatisticData
points handed to async_add_external_statistics (empty list = nothing
emitted). -/
def _import_statistics (lastStat : Option LastStat)
    (readings : List UsageReading) : List StatisticData :=
  match readings with
  | [] => []
  | r :: rs =>
    let cumulative_sum : ℚ :=
      match lastStat with
      | none => 0
      | some ls => ls.sum.getD 0
    let last_stat_time : Option ℚ :=
      match lastStat with
      | none => none
      | some ls => ls.start
    (if cumulative_sum = 0 then [⟨r.date - 86400, 0, 0⟩] else []) ++
      emitLoop last_stat_time cumulative_sum (r :: rs)

/- Modelled from the wording of the spec (section 4.4, step 4), for
refinement comparison only: starting from running total S, emit every
reading in order, each with state equal to its consumption and sum equal
to the running total after adding it. -/
def specEmit (S : ℚ) : List UsageReading → List StatisticData
  | [] => []
  | r :: rs =>
    ⟨r.date, r.consumption, S + r.consumption⟩ :: specEmit (S + r.consumption) rs

/-
Coordinator failure classification, from
TPUDataUpdateCoordinator._async_update_data (the except clauses) and
_SERVER_ERROR_REAUTH_THRESHOLD = 3.
-/

/- How one update cycle ends, before classification. -/
inductive UpdateOutcome where
  | success
  | authError
  | serverError
  | myTPUError
  | otherError
  deriving DecidableEq

/- What _async_update_data surfaces to Home Assistant for that cycle. -/
inductive UpdateResult where
  | ok
  | updateFailed
  | configEntryAuthFailed
  deriving DecidableEq

/- One cycle of _async_update_data: given the current value of
_consecutive_server_errors and the cycle outcome, the surfaced result and
the new counter value. On success the counter is reset to 0; a
ServerError increments it and escalates once it reaches the threshold 3;
AuthError always escalates; other errors surface as UpdateFailed. -/
def classifyStep (count : Nat) (o : UpdateOutcome) : UpdateResult × Nat :=
  match o with
  | UpdateOutcome.success => (UpdateResult.ok, 0)
  | UpdateOutcome.authError => (UpdateResult.configEntryAuthFailed, count)
  | UpdateOutcome.serverError =>
    if 3 ≤ count + 1 then
      (UpdateResult.configEntryAuthFailed, count + 1)
    else
      (UpdateResult.updateFailed, count + 1)
  | UpdateOutcome.myTPUError => (UpdateResult.updateFailed, count)
  | UpdateOutcome.otherError => (UpdateResult.updateFailed, count)

/- A sequence of update cycles, threading the consecutive-server-error
counter through. -/
def runUpdates (count : Nat) : List UpdateOutcome → List UpdateResult × Nat
  | [] => ([], count)
  | o :: os =>
    let step := classifyStep count o
    let rest := runUpdates step.2 os
    (step.1 :: rest.1, rest.2)

/- Helper: with no watermark nothing is skipped, so the loop emits every
reading with the spec accumulation. -/
theorem emitLoop_none_eq_specEmit (c : ℚ) (rs : List UsageReading) :
    emitLoop none c rs = specEmit c rs := by
  induction rs generalizing c with
  | nil => rfl
  | cons r rs ih => simp [emitLoop, specEmit, skipReading, ih]

/- Helper: with a nonzero watermark W the loop emits exactly the readings
strictly after W, with the spec accumulation. -/
theorem emitLoop_some_eq_specEmit_filter (W : ℚ) (hW : W ≠ 0) (c : ℚ)
    (rs : List UsageReading) :
    emitLoop (some W) c rs
      = specEmit c (rs.filter (fun r => decide (W < r.date))) := by
  induction rs generalizing c with
  | nil => rfl
  | cons r rs ih =>
    by_cases hle : r.date ≤ W
    · have hkeep : ¬ W < r.date := not_lt.mpr hle
      simp [emitLoop, skipReading, hW, hle, hkeep, ih]
    · have hkeep : W < r.date := not_le.mp hle
      simp [emitLoop, specEmit, skipReading, hW, hle, hkeep, ih]

/- Helper: every point the loop emits mirrors an actual reading. -/
theorem emitLoop_mem (t : Option ℚ) (c : ℚ) (rs : List UsageReading)
    (p : StatisticData) (hp : p ∈ emitLoop t c rs) :
    ∃ x ∈ rs, p.start = x.date ∧ p.state = x.consumption := by
  induction rs generalizing c with
  | nil => simp [emitLoop] at hp
  | cons r rs ih =>
    rw [emitLoop] at hp
    by_cases hs : skipReading t r.date
    · rw [if_pos hs] at hp
      obtain ⟨x, hx, hx2⟩ := ih _ hp
      exact ⟨x, List.mem_cons_of_mem r hx, hx2⟩
    · rw [if_neg hs] at hp
      rcases List.mem_cons.mp hp with h | h
      · exact ⟨r, List.mem_cons_self r rs, by simp [h]⟩
      · obtain ⟨x, hx, hx2⟩ := ih _ h
        exact ⟨x, List.mem_cons_of_mem r hx, hx2⟩

/-- Claim C7: for every TokenInfo t, is_expired is true exactly when the
current time is at or past expires_at minus the 60 second buffer, and the
boundary instant expires_at - 60 itself counts as expired. -/
theorem is_expired_iff_past_buffer (t : TokenInfo) (now : ℚ) :
    (TokenInfo.is_expired t now = true ↔ t.expires_at - 60 ≤ now)
    ∧ TokenInfo.is_expired t (t.expires_at - 60) = true := by
  constructor
  · simp [TokenInfo.is_expired]
  · simp [TokenInfo.is_expired]

/-- Claim C9: deserializing the storage mapping produced by serializing a
TokenInfo returns exactly that TokenInfo, all four fields preserved. -/
theorem token_storage_roundtrip (t : TokenInfo) :
    TokenInfo.from_dict (TokenInfo.to_dict t) = some t := rfl

/-- Claim C4 counterexample: the third consecutive ServerError cycle
already escalates to ConfigEntryAuthFailed, whereas the claim predicts
three transient UpdateFailed classifications with escalation only on a
fourth. -/
theorem coordinator_escalation_counterexample :
    (runUpdates 0 [UpdateOutcome.serverError, UpdateOutcome.serverError,
        UpdateOutcome.serverError]).1
      = [UpdateResult.updateFailed, UpdateResult.updateFailed,
         UpdateResult.configEntryAuthFailed]
    ∧ [UpdateResult.updateFailed, UpdateResult.updateFailed,
         UpdateResult.configEntryAuthFailed]
      ≠ [UpdateResult.updateFailed, UpdateResult.updateFailed,
         UpdateResult.updateFailed] := by
  decide

/-- Claim C4 amended: the coordinator counts consecutive ServerError
cycles and resets the counter on success; the first two consecutive
ServerError cycles surface as UpdateFailed and the third escalates to
ConfigEntryAuthFailed; an interleaved success resets the counter. -/
theorem coordinator_escalation_amended (c : Nat) :
    classifyStep c UpdateOutcome.success = (UpdateResult.ok, 0)
    ∧ (c + 1 < 3 →
        classifyStep c UpdateOutcome.serverError = (UpdateResult.updateFailed, c + 1))
    ∧ (3 ≤ c + 1 →
        classifyStep c UpdateOutcome.serverError
          = (UpdateResult.configEntryAuthFailed, c + 1))
    ∧ runUpdates 0 [UpdateOutcome.serverError, UpdateOutcome.serverError,
        UpdateOutcome.serverError]
      = ([UpdateResult.updateFailed, UpdateResult.updateFailed,
          UpdateResult.configEntryAuthFailed], 3)
    ∧ runUpdates 0 [UpdateOutcome.serverError, UpdateOutcome.serverError,
        UpdateOutcome.success, UpdateOutcome.serverError]
      = ([UpdateResult.updateFailed, UpdateResult.updateFailed,
          UpdateResult.ok, UpdateResult.updateFailed], 1) := by
  refine ⟨rfl, ?_, ?_, by decide, by decide⟩
  · intro h
    simp [classifyStep, Nat.not_le.mpr h]
  · intro h
    simp [classifyStep, h]

/-- Witness for the amended C4 theorem at a concrete counter value. -/
theorem coordinator_escalation_amended_witness :
    classifyStep 1 UpdateOutcome.serverError = (UpdateResult.updateFailed, 2) :=
  (coordinator_escalation_amended 1).2.1 (by decide)

/-- Claim C1 counterexample: the universal watermark claim fails in two
reachable cases. With a prior point whose sum is 0 (e.g. only the zero
baseline plus zero-consumption days were ever persisted), the importer
emits an extra synthetic baseline point besides day3, while the claim
says exactly the readings after the watermark (here only day3, with
sum 0+7) are emitted. With a prior point whose start is the Unix epoch
(timestamp 0.0, falsy in Python), a reading exactly at the watermark is
emitted instead of skipped. -/
theorem statimport_watermark_counterexample :
    (_import_statistics (some ⟨some 0, some 172800⟩)
        [⟨86400, 5⟩, ⟨172800, 5⟩, ⟨259200, 7⟩]
      = [⟨0, 0, 0⟩, ⟨259200, 7, 7⟩]
    ∧ ([⟨0, 0, 0⟩, ⟨259200, 7, 7⟩] : List StatisticData) ≠ [⟨259200, 7, 7⟩])
    ∧ (_import_statistics (some ⟨some 100, some 0⟩) [⟨0, 5⟩] = [⟨0, 5, 105⟩]
    ∧ ([⟨0, 5, 105⟩] : List StatisticData) ≠ []) := by
  refine ⟨⟨?_, by decide⟩, ⟨?_, by decide⟩⟩
  · norm_num [_import_statistics, emitLoop, skipReading]
  · norm_num [_import_statistics, emitLoop, skipReading]

/-- Claim C1 amended: for every importer run with a prior persisted point
with sum S and start W where S is nonzero and W is a nonzero Unix
timestamp, exactly those readings whose start instant is strictly after W
are emitted, each with state equal to its consumption and sum equal to S
plus the consumptions of all emitted readings up to and including it;
readings at or before W are skipped. The concrete instance of the claim
(prior sum 100 at day2, readings day1/day2/day3) holds as stated. -/
theorem statimport_watermark_amended (S W : ℚ) (readings : List UsageReading)
    (hS : S ≠ 0) (hW : W ≠ 0) :
    _import_statistics (some ⟨some S, some W⟩) readings
      = specEmit S (readings.filter (fun r => decide (W < r.date))) := by
  cases readings with
  | nil => rfl
  | cons r rs =>
    simp only [_import_statistics, Option.getD_some, if_neg hS, List.nil_append]
    exact emitLoop_some_eq_specEmit_filter W hW S (r :: rs)

/-- Witness for the amended C1 theorem: the concrete instance from the
claim, prior point with sum 100 and start day2, readings day1, day2, day3
with consumptions 5, 5, 7: only day3 is emitted, with sum 107. -/
theorem statimport_watermark_amended_witness :
    _import_statistics (some ⟨some 100, some 172800⟩)
        [⟨86400, 5⟩, ⟨172800, 5⟩, ⟨259200, 7⟩]
      = [⟨259200, 7, 107⟩] :=
  (statimport_watermark_amended 100 172800
    [⟨86400, 5⟩, ⟨172800, 5⟩, ⟨259200, 7⟩] (by norm_num) (by norm_num)).trans
    (by norm_num [specEmit])

/-- Claim C2 counterexample: a previous persisted point exists (with
sum 0, start day2), yet the importer still emits a synthetic baseline
point with state 0 and sum 0 one day before the first reading, so the
"only if no previous persisted point exists" direction of the claim is
false: the code keys the baseline on the loaded sum being 0.0, not on
the absence of a previous point. -/
theorem statimport_baseline_counterexample :
    _import_statistics (some ⟨some 0, some 172800⟩) [⟨259200, 7⟩]
      = [⟨172800, 0, 0⟩, ⟨259200, 7, 7⟩]
    ∧ some (⟨some 0, some 172800⟩ : LastStat) ≠ (none : Option LastStat) := by
  refine ⟨?_, by decide⟩
  norm_num [_import_statistics, emitLoop, skipReading]

/-- Claim C2 amended: the synthetic baseline point (start one day before
the first reading, state 0, sum 0) is emitted exactly when the loaded
running total is zero and at least one reading is present; no previous
persisted point is one way of loading a zero total, but a previous point
with sum 0 triggers the baseline too. When the loaded total is nonzero,
every emitted point mirrors an actual reading, so no synthetic point is
emitted. The concrete instance of the claim (no prior point, readings
day1 with 10.0 and day2 with 5.0) emits exactly the three points
(day0,0,0), (day1,10,10), (day2,5,15). -/
theorem statimport_baseline_amended (r : UsageReading) (rs : List UsageReading)
    (ls : LastStat) :
    (_import_statistics none (r :: rs)
        = ⟨r.date - 86400, 0, 0⟩ :: specEmit 0 (r :: rs))
    ∧ (ls.sum.getD 0 = 0 →
        ∃ rest, _import_statistics (some ls) (r :: rs)
          = ⟨r.date - 86400, 0, 0⟩ :: rest)
    ∧ (ls.sum.getD 0 ≠ 0 →
        ∀ p ∈ _import_statistics (some ls) (r :: rs),
          ∃ x ∈ r :: rs, p.start = x.date ∧ p.state = x.consumption)
    ∧ _import_statistics none [⟨86400, 10⟩, ⟨172800, 5⟩]
        = [⟨0, 0, 0⟩, ⟨86400, 10, 10⟩, ⟨172800, 5, 15⟩] := by
  refine ⟨?_, ?_, ?_, by norm_num [_import_statistics, emitLoop, skipReading]⟩
  · simp [_import_statistics, emitLoop_none_eq_specEmit]
  · intro h
    refine ⟨emitLoop ls.start 0 (r :: rs), ?_⟩
    simp [_import_statistics, h]
  · intro h p hp
    simp only [_import_statistics, if_neg h, List.nil_append] at hp
    exact emitLoop_mem ls.start (ls.sum.getD 0) (r :: rs) p hp

/-- Witness for the amended C2 theorem: a prior point with sum 0 exists
and the baseline is nevertheless emitted. -/
theorem statimport_baseline_amended_witness :
    ∃ rest, _import_statistics (some ⟨some 0, some 999⟩) [⟨86400, 10⟩]
      = ⟨(86400 : ℚ) - 86400, 0, 0⟩ :: rest :=
  (statimport_baseline_amended ⟨86400, 10⟩ [] ⟨some 0, some 999⟩).2.1 (by decide)

/-- Claim C3 counterexample: on the password grant (async_login) an HTTP
503 raises AuthError, not ServerError: the ServerError classification for
statuses at or above 500 exists only in the refresh_token grant path. -/
theorem token_exchange_counterexample :
    (async_login ⟨none, some "B"⟩ ⟨200, none, 0, none, none⟩
        ⟨503, none, none, none, none⟩ 0).1
      = Except.error AuthErr.AuthError
    ∧ (Except.error AuthErr.AuthError : Except AuthErr Unit)
      ≠ Except.error AuthErr.ServerError := by
  refine ⟨rfl, fun h => ?_⟩
  injection h with h2
  cases h2

/-- Claim C3 amended: on the refresh_token grant (_refresh_token), a
status at or above 500 raises ServerError, a 4xx status raises AuthError,
and a 200 body lacking access_token raises AuthError; on the password
grant (async_login), any non-200 status (including 5xx) raises AuthError,
and a 200 body lacking access_token raises AuthError. -/
theorem token_exchange_amended (st : AuthState) (tok : TokenInfo) (b : String)
    (scrape : ScrapeEnv) (resp : TokenEndpointResponse) (now : ℚ)
    (h1 : st._token = some tok) (h2 : tok.refresh_token ≠ "")
    (h3 : st._oauth_basic_token = some b) :
    (500 ≤ resp.status →
      (_refresh_token st scrape resp now).1 = Except.error AuthErr.ServerError)
    ∧ (400 ≤ resp.status → resp.status < 500 →
      (_refresh_token st scrape resp now).1 = Except.error AuthErr.AuthError)
    ∧ (resp.status = 200 → resp.access_token = none →
      (_refresh_token st scrape resp now).1 = Except.error AuthErr.AuthError)
    ∧ (resp.status ≠ 200 →
      (async_login st scrape resp now).1 = Except.error AuthErr.AuthError)
    ∧ (resp.status = 200 → resp.access_token = none →
      (async_login st scrape resp now).1 = Except.error AuthErr.AuthError) := by
  obtain ⟨stTok, stBasic⟩ := st
  simp only at h1 h3
  subst h1
  subst h3
  refine ⟨?_, ?_, ?_, ?_, ?_⟩
  · intro h5
    have hne : resp.status ≠ 200 := by omega
    simp [_refresh_token, get_oauth_basic_token, h2, hne, h5]
  · intro h4 h5
    have hne : resp.status ≠ 200 := by omega
    have hlt : ¬ 500 ≤ resp.status := by omega
    simp [_refresh_token, get_oauth_basic_token, h2, hne, hlt]
  · intro h200 hnone
    simp [_refresh_token, get_oauth_basic_token, h2, h200, hnone]
  · intro hne
    simp [async_login, get_oauth_basic_token, hne]
  · intro h200 hnone
    simp [async_login, get_oauth_basic_token, h200, hnone]

/-- Witness for the amended C3 theorem: a refresh_token grant answered
with status 503 raises ServerError. -/
theorem token_exchange_amended_witness :
    (_refresh_token ⟨some ⟨"A", "R", 1000, "C"⟩, some "B"⟩
        ⟨200, none, 0, none, none⟩ ⟨503, none, none, none, none⟩ 0).1
      = Except.error AuthErr.ServerError :=
  (token_exchange_amended ⟨some ⟨"A", "R", 1000, "C"⟩, some "B"⟩
    ⟨"A", "R", 1000, "C"⟩ "B" ⟨200, none, 0, none, none⟩
    ⟨503, none, none, none, none⟩ 0 rfl (by decide) rfl).1 (by decide)

/-- Claim C5 counterexample: get_token with an expired token whose refresh
is answered 401 raises AuthError and leaves the old token in place; it
does not fall back to full username/password authentication (get_token
takes no credentials at all), so the VALID state is not reached. -/
theorem get_token_fallback_counterexample :
    get_token ⟨some ⟨"A", "R", 100, "C"⟩, some "B"⟩ 1000
        ⟨200, none, 0, none, none⟩ ⟨401, none, none, none, none⟩
      = (Except.error AuthErr.AuthError,
         ⟨some ⟨"A", "R", 100, "C"⟩, some "B"⟩, [NetRequest.tokenPost]) := by
  norm_num [get_token, _refresh_token, get_oauth_basic_token, TokenInfo.is_expired]
  rw [if_neg (show ("R" : String) ≠ "" from by decide)]

/-- Claim C5 amended: get_token on an expired token refreshes via the
refresh_token grant, preserving customer_id and refresh_token whenever
the refresh response omits them; if the refresh fails with a client-side
auth error (4xx), get_token raises AuthError signalling that a full login
is required, rather than performing the full authentication itself. -/
theorem get_token_refresh_amended (st : AuthState) (tok : TokenInfo)
    (b a : String) (scrape : ScrapeEnv) (resp : TokenEndpointResponse) (now : ℚ)
    (h1 : st._token = some tok) (h2 : tok.is_expired now = true)
    (h3 : tok.refresh_token ≠ "") (h4 : st._oauth_basic_token = some b) :
    (resp.status = 200 → resp.access_token = some a → resp.refresh_token = none →
      resp.customerId = none →
      get_token st now scrape resp =
        (Except.ok a,
         { st with _token := some ⟨a, tok.refresh_token,
             now + resp.expires_in.getD 3600, tok.customer_id⟩ },
         [NetRequest.tokenPost]))
    ∧ (400 ≤ resp.status → resp.status < 500 →
      get_token st now scrape resp
        = (Except.error AuthErr.AuthError, st, [NetRequest.tokenPost])) := by
  obtain ⟨stTok, stBasic⟩ := st
  simp only at h1 h4
  subst h1
  subst h4
  constructor
  · intro h200 hacc hrt hcid
    simp [get_token, _refresh_token, get_oauth_basic_token, h2, h3,
      h200, hacc, hrt, hcid]
  · intro hge hlt
    have hne : resp.status ≠ 200 := by omega
    have h5 : ¬ 500 ≤ resp.status := by omega
    simp [get_token, _refresh_token, get_oauth_basic_token, h2, h3, hne, h5]

/-- Witness for the amended C5 theorem: a successful refresh whose
response omits refresh_token and customerId keeps "R" and "C" from the
old token. -/
theorem get_token_refresh_amended_witness :
    get_token ⟨some ⟨"A", "R", 100, "C"⟩, some "B"⟩ 1000
        ⟨200, none, 0, none, none⟩ ⟨200, some "A2", none, none, none⟩
      = (Except.ok "A2", ⟨some ⟨"A2", "R", 1000 + 3600, "C"⟩, some "B"⟩,
         [NetRequest.tokenPost]) :=
  (get_token_refresh_amended ⟨some ⟨"A", "R", 100, "C"⟩, some "B"⟩
    ⟨"A", "R", 100, "C"⟩ "B" "A2" ⟨200, none, 0, none, none⟩
    ⟨200, some "A2", none, none, none⟩ 1000 rfl
    (by norm_num [TokenInfo.is_expired]) (by decide) rfl).1
    rfl rfl rfl rfl

/-- Claim C6: async_proactive_refresh on a held token refreshes and
returns true exactly when the remaining lifetime is below the threshold
(whether or not the token is already expired); when the remaining
lifetime is at or above the threshold it returns false, leaves the state
unchanged and performs no network request. -/
theorem proactive_refresh_threshold (st : AuthState) (tok : TokenInfo)
    (now : ℚ) (scrape : ScrapeEnv) (resp : TokenEndpointResponse) (minRem : ℚ)
    (h1 : st._token = some tok) :
    (minRem ≤ tok.seconds_remaining now →
      async_proactive_refresh st now scrape resp minRem = (Except.ok false, st, []))
    ∧ (∀ st2 reqs, tok.seconds_remaining now < minRem →
        _refresh_token st scrape resp now = (Except.ok (), st2, reqs) →
        async_proactive_refresh st now scrape resp minRem
          = (Except.ok true, st2, reqs))
    ∧ (∀ b st2 reqs,
        async_proactive_refresh st now scrape resp minRem
          = (Except.ok b, st2, reqs) →
        (b = true ↔ tok.seconds_remaining now < minRem)) := by
  obtain ⟨stTok, stBasic⟩ := st
  simp only at h1
  subst h1
  refine ⟨?_, ?_, ?_⟩
  · intro h
    simp [async_proactive_refresh, not_lt.mpr h]
  · intro st2 reqs h hr
    simp [async_proactive_refresh, h, hr]
  · intro b st2 reqs h
    by_cases hc : tok.seconds_remaining now < minRem
    · rcases hrt : _refresh_token ⟨some tok, stBasic⟩ scrape resp now
        with ⟨res, st3, reqs3⟩
      cases res with
      | error e =>
        rw [async_proactive_refresh] at h
        simp [hc, hrt] at h
      | ok u =>
        rw [async_proactive_refresh] at h
        simp [hc, hrt] at h
        simp [h.1, hc]
    · rw [async_proactive_refresh] at h
      simp [hc] at h
      simp [h.1, hc]

/-- Witness for C6: remaining lifetime 500 against threshold 900 refreshes
and returns true; remaining lifetime 1000 returns false with no request. -/
theorem proactive_refresh_threshold_witness :
    async_proactive_refresh ⟨some ⟨"A", "R", 500, "C"⟩, some "B"⟩ 0
        ⟨200, none, 0, none, none⟩ ⟨200, some "A2", none, none, none⟩ 900
      = (Except.ok true, ⟨some ⟨"A2", "R", 0 + 3600, "C"⟩, some "B"⟩,
         [NetRequest.tokenPost])
    ∧ async_proactive_refresh ⟨some ⟨"A", "R", 1000, "C"⟩, some "B"⟩ 0
        ⟨200, none, 0, none, none⟩ ⟨200, some "A2", none, none, none⟩ 900
      = (Except.ok false, ⟨some ⟨"A", "R", 1000, "C"⟩, some "B"⟩, []) :=
  ⟨(proactive_refresh_threshold ⟨some ⟨"A", "R", 500, "C"⟩, some "B"⟩
      ⟨"A", "R", 500, "C"⟩ 0 ⟨200, none, 0, none, none⟩
      ⟨200, some "A2", none, none, none⟩ 900 rfl).2.1
      ⟨some ⟨"A2", "R", 0 + 3600, "C"⟩, some "B"⟩ [NetRequest.tokenPost]
      (by norm_num [TokenInfo.seconds_remaining]) rfl,
   (proactive_refresh_threshold ⟨some ⟨"A", "R", 1000, "C"⟩, some "B"⟩
      ⟨"A", "R", 1000, "C"⟩ 0 ⟨200, none, 0, none, none⟩
      ⟨200, some "A2", none, none, none⟩ 900 rfl).1
      (by norm_num [TokenInfo.seconds_remaining])⟩

/-- Claim C8 counterexample: when the login page is unreachable (status
404), Basic-credential extraction fails with AuthError; the code defines
no separate ExtractionError type, so the failure is not an error type
distinct from AuthError as the claim states. -/
theorem extraction_error_counterexample :
    (get_oauth_basic_token ⟨none, none⟩ ⟨404, none, 0, none, none⟩).1
      = Except.error AuthErr.AuthError := rfl

/-- Claim C8 amended: with no cached Basic token, each of the four
extraction failure modes (login page non-200, bundle filename not found
in the page, bundle non-200, no Basic-token pattern matched by either
regex) makes _get_oauth_basic_token raise AuthError; no distinct
ExtractionError type exists in the code. -/
theorem extraction_failure_autherror_amended (t : Option TokenInfo)
    (env : ScrapeEnv)
    (h : env.pageStatus ≠ 200 ∨ env.mainJsMatch = none ∨
      env.bundleStatus ≠ 200 ∨
      (env.basicMatch1 = none ∧ env.basicMatch2 = none)) :
    (get_oauth_basic_token ⟨t, none⟩ env).1 = Except.error AuthErr.AuthError := by
  obtain ⟨ps, mj, bs, m1, m2⟩ := env
  simp only at h
  by_cases h1 : ps = 200
  · cases mj with
    | none => simp [get_oauth_basic_token]
    | some m =>
      by_cases h2 : bs = 200
      · rcases h with hA | hB | hC | ⟨hm1, hm2⟩
        · exact absurd h1 hA
        · cases hB
        · exact absurd h2 hC
        · subst hm1
          subst hm2
          simp [get_oauth_basic_token, h1, h2]
      · simp [get_oauth_basic_token, h1, h2]
  · simp [get_oauth_basic_token, h1]

/-- Witness for the amended C8 theorem: page and bundle load fine but no
Basic-token pattern matches; the result is AuthError. -/
theorem extraction_failure_autherror_amended_witness :
    (get_oauth_basic_token ⟨none, none⟩
        ⟨200, some "main.ab.js", 200, none, none⟩).1
      = Except.error AuthErr.AuthError :=
  extraction_failure_autherror_amended none
    ⟨200, some "main.ab.js", 200, none, none⟩
    (Or.inr (Or.inr (Or.inr ⟨rfl, rfl⟩)))

/-- Claim C10: with a stored token whose refresh_token is the empty
string, every refresh attempt (_refresh_token directly, get_token on an
expired token, async_proactive_refresh below the threshold) raises
AuthError immediately, performing no network request and leaving the
stored state unchanged. -/
theorem empty_refresh_token_rejected (st : AuthState) (tok : TokenInfo)
    (scrape : ScrapeEnv) (resp : TokenEndpointResponse) (now minRem : ℚ)
    (h1 : st._token = some tok) (h2 : tok.refresh_token = "") :
    _refresh_token st scrape resp now = (Except.error AuthErr.AuthError, st, [])
    ∧ (tok.is_expired now = true →
        get_token st now scrape resp = (Except.error AuthErr.AuthError, st, []))
    ∧ (tok.seconds_remaining now < minRem →
        async_proactive_refresh st now scrape resp minRem
          = (Except.error AuthErr.AuthError, st, [])) := by
  obtain ⟨stTok, stBasic⟩ := st
  simp only at h1
  subst h1
  refine ⟨?_, ?_, ?_⟩
  · simp [_refresh_token, h2]
  · intro hexp
    simp [get_token, _refresh_token, hexp, h2]
  · intro hrem
    simp [async_proactive_refresh, _refresh_token, hrem, h2]

/-- Witness for C10 at a concrete expired token stored with an empty
refresh_token (as async_login stores it when the login response omits
refresh_token). -/
theorem empty_refresh_token_rejected_witness :
    _refresh_token ⟨some ⟨"A", "", 100, "C"⟩, none⟩ ⟨200, none, 0, none, none⟩
        ⟨200, none, none, none, none⟩ 1000
      = (Except.error AuthErr.AuthError, ⟨some ⟨"A", "", 100, "C"⟩, none⟩, [])
    ∧ (TokenInfo.is_expired ⟨"A", "", 100, "C"⟩ 1000 = true →
        get_token ⟨some ⟨"A", "", 100, "C"⟩, none⟩ 1000 ⟨200, none, 0, none, none⟩
            ⟨200, none, none, none, none⟩
          = (Except.error AuthErr.AuthError, ⟨some ⟨"A", "", 100, "C"⟩, none⟩, []))
    ∧ (TokenInfo.seconds_remaining ⟨"A", "", 100, "C"⟩ 1000 < 900 →
        async_proactive_refresh ⟨some ⟨"A", "", 100, "C"⟩, none⟩ 1000
            ⟨200, none, 0, none, none⟩ ⟨200, none, none, none, none⟩ 900
          = (Except.error AuthErr.AuthError, ⟨some ⟨"A", "", 100, "C"⟩, none⟩, [])) :=
  empty_refresh_token_rejected ⟨some ⟨"A", "", 100, "C"⟩, none⟩ ⟨"A", "", 100, "C"⟩
    ⟨200, none, 0, none, none⟩ ⟨200, none, none, none, none⟩ 1000 900 rfl rfl
